import Mathlib

/-
Shallow embedding of vedrankolka/donation-server.

The embedded code is pkg/handler/handler.go (DonationHandler: HandleWebhook,
HandleCreatePaymentIntent, getAmount, writeJSON helpers, the Timeout and
Currency constants) together with the DonationEvent type of pkg/notifier.

External collaborators (the stripe-go library, the Kafka client) are modelled
as oracles: functions supplied as parameters whose results drive the handler
exactly as the corresponding Go call results do.  Side effects performed by a
handler call (reading the request body, fetching a customer, producing a
record) are collected in an explicit effects record so that claims of the form
"no publish is attempted" become statements about that record.

Go runtime panics are modelled explicitly: a handler returns
`Except GoPanic HttpResponse`; the one reachable panic in this code is the
`err.Error()` call on a nil `error` interface value in HandleWebhook
(handler.go line 155, reached when the "customer" type assertion fails and
`err` is necessarily nil at that point).
-/

namespace DonationServer

/-- Dynamic value stored in the untyped `map[string]interface\x7b\x7d` of
`event.Data.Object`.  Only whether the value is a string matters to the Go
type assertion `.(string)`; other shapes are represented by `num` and
`null`. -/
inductive GoValue where
  | str (s : String)
  | num (n : Int)
  | null
  deriving DecidableEq, Repr

/-- Go runtime panics reachable in the embedded code. -/
inductive GoPanic where
  | nilErrorDereference
  deriving DecidableEq, Repr

/-- HTTP response as produced by the handler: status code, Content-Type
header (when one is set before the body is committed) and body bytes. -/
structure HttpResponse where
  status : Nat
  contentType : Option String
  body : String
  deriving DecidableEq, Repr

/-- Model of net/http StatusText, restricted to the one code the handlers
pass to it. -/
def statusText (code : Nat) : String :=
  if code = 405 then "Method Not Allowed" else ""

/-- Model of net/http Error: plain-text content type, message plus a
newline as body, explicit status code. -/
def httpError (msg : String) (code : Nat) : HttpResponse :=
  { status := code, contentType := some "text/plain; charset=utf-8", body := msg ++ "\n" }

/-- Response written by `dh.writeJSON(w, nil)` (handler.go line 197): Go
json.Encoder.Encode of a nil interface writes the five bytes "null" plus
newline, the Content-Type is set to application/json, and the status stays
the implicit 200. -/
def writeJSONNilResponse : HttpResponse :=
  { status := 200, contentType := some "application/json", body := "null\n" }

/-- Minimal JSON string encoding used by the marshalling models (escape
sequences inside the string are not modelled; no claim depends on them). -/
def jsonQuote (s : String) : String := "\"" ++ s ++ "\""

/-- Stripe customer record, reduced to the fields this server reads.  The
field names correspond to stripe-go json tags "id", "name", "email". -/
structure Customer where
  id : String
  name : String
  email : String
  deriving DecidableEq, Repr

/-- Model of `json.Marshal(customer)` (handler.go line 166) on the reduced
Customer: a JSON object whose keys are the stripe-go json tags.  Marshalling
a struct of plain string fields cannot fail, so the error branch at
handler.go lines 167-171 is dead and the model returns the string
directly. -/
def marshalCustomer (c : Customer) : String :=
  "\x7b\"id\":" ++ jsonQuote c.id ++ ",\"name\":" ++ jsonQuote c.name
    ++ ",\"email\":" ++ jsonQuote c.email ++ "\x7d"

/-- Stripe webhook event as used by HandleWebhook: the `Type` string and the
untyped `Data.Object` map. -/
structure Event where
  type : String
  dataObject : List (String × GoValue)
  deriving DecidableEq, Repr

/-- Go type assertion `v.(string)` on the result of a map lookup: succeeds
exactly when the key is present and holds a string (a missing key yields the
nil interface value, whose assertion fails). -/
def asString : Option GoValue → Option String
  | some (GoValue.str s) => some s
  | _ => none

/-- DonationEvent from pkg/notifier (handler.go source lines 311-317); the
json tags are customerID, customerName, customerEmail, amount, currency. -/
structure DonationEvent where
  customerID : String
  customerName : String
  customerEmail : String
  amount : Float
  currency : String

/-- Tail of the DonationEvent JSON encoding after the leading
`\x7b"customerID":` key (split out so the leading key is a single literal). -/
def donationEventTail (d : DonationEvent) : String :=
  jsonQuote d.customerID ++ ",\"customerName\":" ++ jsonQuote d.customerName
    ++ ",\"customerEmail\":" ++ jsonQuote d.customerEmail
    ++ ",\"amount\":" ++ toString d.amount
    ++ ",\"currency\":" ++ jsonQuote d.currency ++ "\x7d"

/-- Model of `json.Marshal(event)` for a notifier.DonationEvent
(KafkaNotifier.Notify, source lines 261-271): a JSON object whose keys are
the DonationEvent json tags, in declaration order, so every encoding starts
with the 14 characters `\x7b"customerID":`. -/
def marshalDonationEvent (d : DonationEvent) : String :=
  "\x7b\"customerID\":" ++ donationEventTail d

/-- Constants from handler.go lines 43-46.  Timeout is a Go time.Duration,
counted in nanoseconds: 500 * time.Millisecond. -/
def Currency : String := "EUR"

/-- Nanoseconds in one Go time.Millisecond. -/
def millisecond : Nat := 1000000

/-- Timeout constant (handler.go line 45): 500 * time.Millisecond, in
nanoseconds. -/
def Timeout : Nat := 500 * millisecond

/-- One record handed to `kafkaClient.ProduceSync` (handler.go lines
173-181), together with the deadline of the context the call runs under
(`context.WithTimeout(r.Context(), Timeout)`), in nanoseconds. -/
structure PublishCall where
  key : String
  value : String
  topic : String
  timeoutNs : Nat
  deriving DecidableEq, Repr

/-- Configuration state of the DonationHandler (handler.go lines 35-41);
the stripe and kafka client handles are passed separately as oracles. -/
structure DonationHandler where
  publishableKey : String
  webhookSecret : String
  customerTopic : String
  deriving DecidableEq, Repr

/-- Oracle for the stripe-go library: `webhook.ConstructEvent` (signature
verification over body, Stripe-Signature header and secret) and
`Customers.Get`.  An `Except.error` result is the non-nil Go error with its
message. -/
structure StripeEnv where
  constructEvent : String → String → String → Except String Event
  customersGet : String → Except String Customer

/-- Oracle for `kafkaClient.ProduceSync`: `none` models a nil
kgo.ProduceResults slice, `some (Except.error m)` a result whose FirstErr is
the non-nil error with message m, and `some (Except.ok o)` a successful
produce with offset o. -/
structure KafkaEnv where
  produceSync : PublishCall → Option (Except String Int)

/-- Inbound HTTP request as seen by HandleWebhook: method, the result of
ioutil.ReadAll on the body, and the Stripe-Signature header. -/
structure Request where
  method : String
  body : Except String String
  stripeSignature : String

/-- Side effects performed by one HandleWebhook call: whether the body was
read, whether signature verification (webhook.ConstructEvent) ran, which
customer ids were fetched from stripe, and which records were produced to
the broker. -/
structure WebhookEffects where
  bodyRead : Bool
  constructEventCalled : Bool
  customerGets : List String
  publishes : List PublishCall
  deriving DecidableEq, Repr

/-- Effects of a run that stopped at the method check, before reading the
body. -/
def noEffects : WebhookEffects :=
  { bodyRead := false, constructEventCalled := false, customerGets := [], publishes := [] }

/-- Effects of a run that read the body but never ran signature
verification. -/
def readEffects : WebhookEffects :=
  { bodyRead := true, constructEventCalled := false, customerGets := [], publishes := [] }

/-- Effects of a run that ran signature verification but fetched no
customer and produced nothing. -/
def verifiedEffects : WebhookEffects :=
  { bodyRead := true, constructEventCalled := true, customerGets := [], publishes := [] }

/-- Effects of a run that fetched customer id cid and produced nothing. -/
def fetchedEffects (cid : String) : WebhookEffects :=
  { bodyRead := true, constructEventCalled := true, customerGets := [cid], publishes := [] }

/-- Effects of a run that fetched customer id cid and handed record p to
ProduceSync. -/
def producedEffects (cid : String) (p : PublishCall) : WebhookEffects :=
  { bodyRead := true, constructEventCalled := true, customerGets := [cid], publishes := [p] }

/-- Record built at handler.go lines 173-177 for a fetched customer: keyed
by the customer id, value the marshalled customer, on the configured topic,
produced under the Timeout deadline of the request context. -/
def customerRecord (dh : DonationHandler) (c : Customer) : PublishCall :=
  { key := c.id, value := marshalCustomer c, topic := dh.customerTopic, timeoutNs := Timeout }

/-- Shallow embedding of DonationHandler.HandleWebhook (handler.go lines
127-198), following the source line by line.  enableCors only sets a
response header and is omitted.  The `none` branch of the "customer" type
assertion mirrors line 155: `err` is nil there, so `err.Error()` panics with
a nil pointer dereference before any response is written. -/
def HandleWebhook (dh : DonationHandler) (s : StripeEnv) (k : KafkaEnv) (r : Request) :
    WebhookEffects × Except GoPanic HttpResponse :=
  if r.method ≠ "POST" then
    (noEffects, Except.ok (httpError (statusText 405) 405))
  else
    match r.body with
    | Except.error msg =>
        (readEffects, Except.ok (httpError msg 400))
    | Except.ok b =>
        match s.constructEvent b r.stripeSignature dh.webhookSecret with
        | Except.error msg =>
            (verifiedEffects, Except.ok (httpError msg 400))
        | Except.ok event =>
            if event.type = "checkout.session.completed" then
              match asString (event.dataObject.lookup "customer") with
              | none =>
                  (verifiedEffects, Except.error GoPanic.nilErrorDereference)
              | some customerId =>
                  match s.customersGet customerId with
                  | Except.error msg =>
                      (fetchedEffects customerId, Except.ok (httpError msg 500))
                  | Except.ok customer =>
                      match k.produceSync (customerRecord dh customer) with
                      | none =>
                          (producedEffects customerId (customerRecord dh customer),
                           Except.ok (httpError "Could not produce to customer topic." 500))
                      | some (Except.error msg) =>
                          (producedEffects customerId (customerRecord dh customer),
                           Except.ok (httpError msg 500))
                      | some (Except.ok _) =>
                          (producedEffects customerId (customerRecord dh customer),
                           Except.ok writeJSONNilResponse)
            else
              (verifiedEffects, Except.ok writeJSONNilResponse)

/-- Concrete handler configuration used by the closed test runs. -/
def testHandler : DonationHandler :=
  { publishableKey := "pk_test", webhookSecret := "whsec_test", customerTopic := "customers" }

/-- Concrete customer returned by the stripe oracle in the test runs. -/
def testCustomer : Customer :=
  { id := "cus_1", name := "Ana", email := "ana@example.com" }

/-- Concrete qualifying event: checkout.session.completed with a string
customer id. -/
def okEvent : Event :=
  { type := "checkout.session.completed", dataObject := [("customer", GoValue.str "cus_1")] }

/-- Concrete event of an unrecognized type. -/
def otherEvent : Event :=
  { type := "charge.succeeded", dataObject := [] }

/-- Concrete qualifying event whose data object has no "customer" key. -/
def noCustomerEvent : Event :=
  { type := "checkout.session.completed", dataObject := [("amount_total", GoValue.num 1500)] }

/-- Stripe oracle where verification succeeds with the qualifying event and
the customer fetch succeeds. -/
def stripeOk : StripeEnv :=
  { constructEvent := fun _ _ _ => Except.ok okEvent,
    customersGet := fun _ => Except.ok testCustomer }

/-- Stripe oracle where signature verification fails. -/
def stripeBadSig : StripeEnv :=
  { constructEvent := fun _ _ _ => Except.error "bad signature",
    customersGet := fun _ => Except.ok testCustomer }

/-- Stripe oracle delivering an event of an unrecognized type. -/
def stripeOtherType : StripeEnv :=
  { constructEvent := fun _ _ _ => Except.ok otherEvent,
    customersGet := fun _ => Except.ok testCustomer }

/-- Stripe oracle delivering a qualifying event without a customer id. -/
def stripeNoCustomer : StripeEnv :=
  { constructEvent := fun _ _ _ => Except.ok noCustomerEvent,
    customersGet := fun _ => Except.ok testCustomer }

/-- Stripe oracle where the customer fetch finds no such customer. -/
def stripeNoMatch : StripeEnv :=
  { constructEvent := fun _ _ _ => Except.ok okEvent,
    customersGet := fun _ => Except.error "no such customer" }

/-- Kafka oracle where the produce succeeds with offset 7. -/
def kafkaOk : KafkaEnv := { produceSync := fun _ => some (Except.ok 7) }

/-- Kafka oracle where the produce times out. -/
def kafkaFail : KafkaEnv :=
  { produceSync := fun _ => some (Except.error "context deadline exceeded") }

/-- Concrete POST request with a readable body and a signature header. -/
def postReq : Request :=
  { method := "POST", body := Except.ok "payload", stripeSignature := "t=1,v1=abc" }

/-- Concrete GET request. -/
def getReq : Request :=
  { method := "GET", body := Except.ok "payload", stripeSignature := "" }

/-- Record produced by the successful test run. -/
def successRecord : PublishCall :=
  { key := "cus_1", value := marshalCustomer testCustomer,
    topic := "customers", timeoutNs := Timeout }

/-- Case analysis of one HandleWebhook run: exactly one of the nine source
paths is taken, each with its effects and its response. -/
theorem HandleWebhook_run_cases
    (dh : DonationHandler) (s : StripeEnv) (k : KafkaEnv) (r : Request) :
    (r.method ≠ "POST" ∧
      HandleWebhook dh s k r = (noEffects, Except.ok (httpError (statusText 405) 405))) ∨
    (∃ msg, r.body = Except.error msg ∧
      HandleWebhook dh s k r = (readEffects, Except.ok (httpError msg 400))) ∨
    (∃ b msg, r.body = Except.ok b ∧
      s.constructEvent b r.stripeSignature dh.webhookSecret = Except.error msg ∧
      HandleWebhook dh s k r = (verifiedEffects, Except.ok (httpError msg 400))) ∨
    (∃ b e, r.body = Except.ok b ∧
      s.constructEvent b r.stripeSignature dh.webhookSecret = Except.ok e ∧
      e.type ≠ "checkout.session.completed" ∧
      HandleWebhook dh s k r = (verifiedEffects, Except.ok writeJSONNilResponse)) ∨
    (∃ b e, r.body = Except.ok b ∧
      s.constructEvent b r.stripeSignature dh.webhookSecret = Except.ok e ∧
      e.type = "checkout.session.completed" ∧
      asString (e.dataObject.lookup "customer") = none ∧
      HandleWebhook dh s k r = (verifiedEffects, Except.error GoPanic.nilErrorDereference)) ∨
    (∃ b e cid msg, r.body = Except.ok b ∧
      s.constructEvent b r.stripeSignature dh.webhookSecret = Except.ok e ∧
      e.type = "checkout.session.completed" ∧
      asString (e.dataObject.lookup "customer") = some cid ∧
      s.customersGet cid = Except.error msg ∧
      HandleWebhook dh s k r = (fetchedEffects cid, Except.ok (httpError msg 500))) ∨
    (∃ b e cid c, r.body = Except.ok b ∧
      s.constructEvent b r.stripeSignature dh.webhookSecret = Except.ok e ∧
      e.type = "checkout.session.completed" ∧
      asString (e.dataObject.lookup "customer") = some cid ∧
      s.customersGet cid = Except.ok c ∧
      k.produceSync (customerRecord dh c) = none ∧
      HandleWebhook dh s k r = (producedEffects cid (customerRecord dh c),
        Except.ok (httpError "Could not produce to customer topic." 500))) ∨
    (∃ b e cid c msg, r.body = Except.ok b ∧
      s.constructEvent b r.stripeSignature dh.webhookSecret = Except.ok e ∧
      e.type = "checkout.session.completed" ∧
      asString (e.dataObject.lookup "customer") = some cid ∧
      s.customersGet cid = Except.ok c ∧
      k.produceSync (customerRecord dh c) = some (Except.error msg) ∧
      HandleWebhook dh s k r = (producedEffects cid (customerRecord dh c),
        Except.ok (httpError msg 500))) ∨
    (∃ b e cid c o, r.body = Except.ok b ∧
      s.constructEvent b r.stripeSignature dh.webhookSecret = Except.ok e ∧
      e.type = "checkout.session.completed" ∧
      asString (e.dataObject.lookup "customer") = some cid ∧
      s.customersGet cid = Except.ok c ∧
      k.produceSync (customerRecord dh c) = some (Except.ok o) ∧
      HandleWebhook dh s k r = (producedEffects cid (customerRecord dh c),
        Except.ok writeJSONNilResponse)) := by
  by_cases hm : r.method = "POST"
  case neg => exact Or.inl ⟨hm, by simp [HandleWebhook, hm]⟩
  case pos =>
  rcases hb : r.body with msg | b
  · exact Or.inr (Or.inl ⟨msg, rfl, by simp [HandleWebhook, hm, hb]⟩)
  rcases hv : s.constructEvent b r.stripeSignature dh.webhookSecret with msg | e
  · exact Or.inr (Or.inr (Or.inl ⟨b, msg, rfl, hv, by simp [HandleWebhook, hm, hb, hv]⟩))
  by_cases ht : e.type = "checkout.session.completed"
  case neg =>
    exact Or.inr (Or.inr (Or.inr (Or.inl
      ⟨b, e, rfl, hv, ht, by simp [HandleWebhook, hm, hb, hv, ht]⟩)))
  case pos =>
  rcases hc : asString (e.dataObject.lookup "customer") with _ | cid
  · exact Or.inr (Or.inr (Or.inr (Or.inr (Or.inl
      ⟨b, e, rfl, hv, ht, hc, by simp [HandleWebhook, hm, hb, hv, ht, hc]⟩))))
  rcases hg : s.customersGet cid with msg | c
  · exact Or.inr (Or.inr (Or.inr (Or.inr (Or.inr (Or.inl
      ⟨b, e, cid, msg, rfl, hv, ht, hc, hg,
        by simp [HandleWebhook, hm, hb, hv, ht, hc, hg]⟩)))))
  rcases hk : k.produceSync (customerRecord dh c) with _ | mres
  · exact Or.inr (Or.inr (Or.inr (Or.inr (Or.inr (Or.inr (Or.inl
      ⟨b, e, cid, c, rfl, hv, ht, hc, hg, hk,
        by simp [HandleWebhook, hm, hb, hv, ht, hc, hg, hk]⟩))))))
  rcases mres with msg | o
  · exact Or.inr (Or.inr (Or.inr (Or.inr (Or.inr (Or.inr (Or.inr (Or.inl
      ⟨b, e, cid, c, msg, rfl, hv, ht, hc, hg, hk,
        by simp [HandleWebhook, hm, hb, hv, ht, hc, hg, hk]⟩)))))))
  · exact Or.inr (Or.inr (Or.inr (Or.inr (Or.inr (Or.inr (Or.inr (Or.inr
      ⟨b, e, cid, c, o, rfl, hv, ht, hc, hg, hk,
        by simp [HandleWebhook, hm, hb, hv, ht, hc, hg, hk]⟩)))))))

/-- C1: for every POST /webhook request whose body and Stripe-Signature
header do not verify against the configured webhook secret (modelled as
webhook.ConstructEvent returning a non-nil error), HandleWebhook responds
with HTTP 400 carrying the error message, and no record is published to the
broker. -/
theorem C1_invalid_signature_400_no_publish
    (dh : DonationHandler) (s : StripeEnv) (k : KafkaEnv) (r : Request)
    (b : String) (msg : String)
    (hm : r.method = "POST") (hb : r.body = Except.ok b)
    (hv : s.constructEvent b r.stripeSignature dh.webhookSecret = Except.error msg) :
    (HandleWebhook dh s k r).2 = Except.ok (httpError msg 400) ∧
    (HandleWebhook dh s k r).1.publishes = [] := by
  simp [HandleWebhook, hm, hb, hv, verifiedEffects]

/-- Witness for C1: a concrete run with a failing signature check returns
400 and publishes nothing. -/
theorem C1_witness :
    (HandleWebhook testHandler stripeBadSig kafkaOk postReq).2
        = Except.ok (httpError "bad signature" 400) ∧
    (HandleWebhook testHandler stripeBadSig kafkaOk postReq).1.publishes = [] :=
  C1_invalid_signature_400_no_publish testHandler stripeBadSig kafkaOk postReq
    "payload" "bad signature" rfl rfl rfl

/-- C2 (code bug): at a signature-verified checkout.session.completed event
whose data object has no "customer" string field, HandleWebhook reaches
handler.go line 155, where `err` is necessarily nil, and `err.Error()`
panics with a nil pointer dereference; no error response is written and
nothing is published.  This contradicts the spec sentence that a missing or
mistyped field surfaces as an error response rather than a crash. -/
theorem C2_missing_customer_field_panics :
    (HandleWebhook testHandler stripeNoCustomer kafkaOk postReq).2
        = Except.error GoPanic.nilErrorDereference ∧
    (HandleWebhook testHandler stripeNoCustomer kafkaOk postReq).1.publishes = [] := by
  exact ⟨rfl, rfl⟩

/-- C5: for every signature-verified webhook whose event type is not
"checkout.session.completed", HandleWebhook responds with HTTP 200 (the
writeJSON nil response) and no record is published to the broker. -/
theorem C5_other_event_type_200_no_publish
    (dh : DonationHandler) (s : StripeEnv) (k : KafkaEnv) (r : Request)
    (b : String) (e : Event)
    (hm : r.method = "POST") (hb : r.body = Except.ok b)
    (hv : s.constructEvent b r.stripeSignature dh.webhookSecret = Except.ok e)
    (ht : e.type ≠ "checkout.session.completed") :
    (HandleWebhook dh s k r).2 = Except.ok writeJSONNilResponse ∧
    writeJSONNilResponse.status = 200 ∧
    (HandleWebhook dh s k r).1.publishes = [] := by
  refine ⟨?_, rfl, ?_⟩ <;> simp [HandleWebhook, hm, hb, hv, ht, verifiedEffects]

/-- Witness for C5: a concrete run with event type charge.succeeded
returns 200 and publishes nothing. -/
theorem C5_witness :
    (HandleWebhook testHandler stripeOtherType kafkaOk postReq).2
        = Except.ok writeJSONNilResponse ∧
    writeJSONNilResponse.status = 200 ∧
    (HandleWebhook testHandler stripeOtherType kafkaOk postReq).1.publishes = [] :=
  C5_other_event_type_200_no_publish testHandler stripeOtherType kafkaOk postReq
    "payload" otherEvent rfl rfl rfl (by decide)

/-- C10: for every /webhook request whose method is not POST, HandleWebhook
responds 405 Method Not Allowed and performs no effect at all: the body is
not read, signature verification does not run, no customer is fetched and
nothing is published. -/
theorem C10_non_post_405_no_effects
    (dh : DonationHandler) (s : StripeEnv) (k : KafkaEnv) (r : Request)
    (hm : r.method ≠ "POST") :
    (HandleWebhook dh s k r).2 = Except.ok (httpError (statusText 405) 405) ∧
    statusText 405 = "Method Not Allowed" ∧
    (HandleWebhook dh s k r).1 =
      { bodyRead := false, constructEventCalled := false,
        customerGets := [], publishes := [] } := by
  refine ⟨?_, rfl, ?_⟩ <;> simp [HandleWebhook, hm, noEffects]

/-- Witness for C10: a concrete GET request is rejected with 405 and no
effects. -/
theorem C10_witness :
    (HandleWebhook testHandler stripeOk kafkaOk getReq).2
        = Except.ok (httpError (statusText 405) 405) ∧
    statusText 405 = "Method Not Allowed" ∧
    (HandleWebhook testHandler stripeOk kafkaOk getReq).1 =
      { bodyRead := false, constructEventCalled := false,
        customerGets := [], publishes := [] } :=
  C10_non_post_405_no_effects testHandler stripeOk kafkaOk getReq (by decide)

/-- C3 counterexample: a concrete run in which the customer lookup finds no
match ("no such customer").  The claimed algorithm would fall back to
creating a new customer with email and name and continue; the code instead
aborts the request with HTTP 500, fetching nothing further, creating
nothing, and publishing nothing. -/
theorem C3_counterexample_no_match_500 :
    (HandleWebhook testHandler stripeNoMatch kafkaOk postReq).2
        = Except.ok (httpError "no such customer" 500) ∧
    (HandleWebhook testHandler stripeNoMatch kafkaOk postReq).1.customerGets = ["cus_1"] ∧
    (HandleWebhook testHandler stripeNoMatch kafkaOk postReq).1.publishes = [] :=
  ⟨rfl, rfl, rfl⟩

/-- C3 amended: customer resolution in HandleWebhook is lookup-by-ID only.
Either no customer is fetched at all, or exactly one Customers.Get is issued
on the id extracted from the event, and any published record is built from
the customer that Get returned (so a customer found by ID is reused, never
recreated); there is no lookup-by-email and no customer creation. -/
theorem C3_amended_resolution_by_id_only
    (dh : DonationHandler) (s : StripeEnv) (k : KafkaEnv) (r : Request) :
    (HandleWebhook dh s k r).1.customerGets = [] ∨
    (∃ b e cid, r.body = Except.ok b ∧
      s.constructEvent b r.stripeSignature dh.webhookSecret = Except.ok e ∧
      e.type = "checkout.session.completed" ∧
      asString (e.dataObject.lookup "customer") = some cid ∧
      (HandleWebhook dh s k r).1.customerGets = [cid] ∧
      ∀ p ∈ (HandleWebhook dh s k r).1.publishes,
        ∃ c, s.customersGet cid = Except.ok c ∧ p = customerRecord dh c) := by
  rcases HandleWebhook_run_cases dh s k r with
    ⟨_, h⟩ | ⟨_, _, h⟩ | ⟨_, _, _, _, h⟩ | ⟨_, _, _, _, _, h⟩ |
    ⟨_, _, _, _, _, _, h⟩ | ⟨b, e, cid, msg, hb, hv, ht, hc, hg, h⟩ |
    ⟨b, e, cid, c, hb, hv, ht, hc, hg, hk, h⟩ |
    ⟨b, e, cid, c, msg, hb, hv, ht, hc, hg, hk, h⟩ |
    ⟨b, e, cid, c, o, hb, hv, ht, hc, hg, hk, h⟩
  · exact Or.inl (by rw [h]; rfl)
  · exact Or.inl (by rw [h]; rfl)
  · exact Or.inl (by rw [h]; rfl)
  · exact Or.inl (by rw [h]; rfl)
  · exact Or.inl (by rw [h]; rfl)
  · refine Or.inr ⟨b, e, cid, hb, hv, ht, hc, by rw [h]; rfl, ?_⟩
    rw [h]; intro p hp; simp [fetchedEffects] at hp
  · refine Or.inr ⟨b, e, cid, hb, hv, ht, hc, by rw [h]; rfl, ?_⟩
    rw [h]; intro p hp
    simp [producedEffects] at hp
    exact ⟨c, hg, hp⟩
  · refine Or.inr ⟨b, e, cid, hb, hv, ht, hc, by rw [h]; rfl, ?_⟩
    rw [h]; intro p hp
    simp [producedEffects] at hp
    exact ⟨c, hg, hp⟩
  · refine Or.inr ⟨b, e, cid, hb, hv, ht, hc, by rw [h]; rfl, ?_⟩
    rw [h]; intro p hp
    simp [producedEffects] at hp
    exact ⟨c, hg, hp⟩

/-- C4: when the customer was resolved but the broker produce fails (a nil
result slice or a FirstErr), HandleWebhook responds HTTP 500, the customer
fetch has already happened and is not rolled back (no compensating call
exists), and exactly one produce attempt was made: no retry. -/
theorem C4_publish_failure_500_no_retry
    (dh : DonationHandler) (s : StripeEnv) (k : KafkaEnv) (r : Request)
    (b : String) (e : Event) (cid : String) (c : Customer)
    (hm : r.method = "POST") (hb : r.body = Except.ok b)
    (hv : s.constructEvent b r.stripeSignature dh.webhookSecret = Except.ok e)
    (ht : e.type = "checkout.session.completed")
    (hc : asString (e.dataObject.lookup "customer") = some cid)
    (hg : s.customersGet cid = Except.ok c)
    (hf : k.produceSync (customerRecord dh c) = none ∨
          ∃ m, k.produceSync (customerRecord dh c) = some (Except.error m)) :
    (∃ m, (HandleWebhook dh s k r).2 = Except.ok (httpError m 500)) ∧
    (HandleWebhook dh s k r).1.customerGets = [cid] ∧
    (HandleWebhook dh s k r).1.publishes = [customerRecord dh c] := by
  rcases hf with hf | ⟨m, hf⟩
  · refine ⟨⟨"Could not produce to customer topic.", ?_⟩, ?_, ?_⟩ <;>
      simp [HandleWebhook, hm, hb, hv, ht, hc, hg, hf, producedEffects]
  · refine ⟨⟨m, ?_⟩, ?_, ?_⟩ <;>
      simp [HandleWebhook, hm, hb, hv, ht, hc, hg, hf, producedEffects]

/-- Witness for C4: a concrete run whose produce times out returns 500 after
a completed customer fetch and a single produce attempt. -/
theorem C4_witness :
    (∃ m, (HandleWebhook testHandler stripeOk kafkaFail postReq).2
        = Except.ok (httpError m 500)) ∧
    (HandleWebhook testHandler stripeOk kafkaFail postReq).1.customerGets = ["cus_1"] ∧
    (HandleWebhook testHandler stripeOk kafkaFail postReq).1.publishes
        = [customerRecord testHandler testCustomer] :=
  C4_publish_failure_500_no_retry testHandler stripeOk kafkaFail postReq
    "payload" okEvent "cus_1" testCustomer rfl rfl rfl rfl rfl rfl
    (Or.inr ⟨"context deadline exceeded", rfl⟩)

/-- Every DonationEvent JSON encoding starts with the 14 characters
of `\x7b"customerID":`, the first json tag of the DonationEvent struct. -/
theorem marshalDonationEvent_take14 (d : DonationEvent) :
    (marshalDonationEvent d).data.take 14 = ("\x7b\"customerID\":").data := by
  have h : (marshalDonationEvent d).data
      = ("\x7b\"customerID\":").data ++ (donationEventTail d).data := rfl
  have h14 : ("\x7b\"customerID\":").data.length = 14 := by decide
  rw [h, ← h14, List.take_left]

/-- C6 counterexample: on a concrete qualifying run the published value is
the marshalled stripe customer, whose first 14 characters are not
`\x7b"customerID":`, while (by marshalDonationEvent_take14) every
DonationEvent serialization starts with exactly those 14 characters, and the
serialization of the DonationEvent the spec would build for this very call
differs from the published value.  So the published value is not the JSON
serialization of the normalized DonationEvent shape. -/
theorem C6_counterexample_published_value_not_donation_event :
    ((HandleWebhook testHandler stripeOk kafkaOk postReq).1.publishes.map
        PublishCall.value = [marshalCustomer testCustomer]) ∧
    (marshalCustomer testCustomer).data.take 14 ≠ ("\x7b\"customerID\":").data ∧
    (marshalDonationEvent
        { customerID := "cus_1", customerName := "Ana",
          customerEmail := "ana@example.com", amount := 15, currency := "EUR" }).data.take 14
      ≠ (marshalCustomer testCustomer).data.take 14 := by
  refine ⟨rfl, by decide, ?_⟩
  rw [marshalDonationEvent_take14]
  decide

/-- C6 amended: on every qualifying webhook call that resolves the customer,
the record handed to the broker is built once from the fetched stripe
customer: keyed by the customer id, its value the JSON serialization of the
full customer record (keys per the stripe-go json tags), not a
DonationEvent. -/
theorem C6_amended_published_record_is_customer_json
    (dh : DonationHandler) (s : StripeEnv) (k : KafkaEnv) (r : Request)
    (b : String) (e : Event) (cid : String) (c : Customer)
    (hm : r.method = "POST") (hb : r.body = Except.ok b)
    (hv : s.constructEvent b r.stripeSignature dh.webhookSecret = Except.ok e)
    (ht : e.type = "checkout.session.completed")
    (hc : asString (e.dataObject.lookup "customer") = some cid)
    (hg : s.customersGet cid = Except.ok c) :
    (HandleWebhook dh s k r).1.publishes = [customerRecord dh c] ∧
    (customerRecord dh c).value = marshalCustomer c ∧
    (customerRecord dh c).key = c.id := by
  refine ⟨?_, rfl, rfl⟩
  rcases hk : k.produceSync (customerRecord dh c) with _ | mres
  · simp [HandleWebhook, hm, hb, hv, ht, hc, hg, hk, producedEffects]
  · rcases mres with msg | o <;>
      simp [HandleWebhook, hm, hb, hv, ht, hc, hg, hk, producedEffects]

/-- Witness for C6 amended at a concrete successful run. -/
theorem C6_amended_witness :
    (HandleWebhook testHandler stripeOk kafkaOk postReq).1.publishes
        = [customerRecord testHandler testCustomer] ∧
    (customerRecord testHandler testCustomer).value = marshalCustomer testCustomer ∧
    (customerRecord testHandler testCustomer).key = testCustomer.id :=
  C6_amended_published_record_is_customer_json testHandler stripeOk kafkaOk postReq
    "payload" okEvent "cus_1" testCustomer rfl rfl rfl rfl rfl rfl

/-- C7 counterexample: on a concrete fully successful run the response body
is the JSON encoding of nil, the bytes "null" plus newline, not the JSON
object \x7b\x7d. -/
theorem C7_counterexample_success_body_is_null :
    (HandleWebhook testHandler stripeOk kafkaOk postReq).2
        = Except.ok writeJSONNilResponse ∧
    writeJSONNilResponse.body = "null\n" ∧
    writeJSONNilResponse.body ≠ "\x7b\x7d" ∧
    writeJSONNilResponse.body ≠ "\x7b\x7d\n" :=
  ⟨rfl, rfl, by decide, by decide⟩

/-- C7 amended: every successful (status 200) /webhook response carries the
body "null\n" (the JSON encoding of nil) with content type
application/json, and every error response HandleWebhook writes is a
plain-text http.Error response, not the JSON error envelope (that envelope
is produced by writeJSONErrorMessage, used by HandleCreatePaymentIntent). -/
theorem C7_amended_response_bodies
    (dh : DonationHandler) (s : StripeEnv) (k : KafkaEnv) (r : Request)
    (resp : HttpResponse)
    (h : (HandleWebhook dh s k r).2 = Except.ok resp) :
    (resp.status = 200 →
      resp.body = "null\n" ∧ resp.contentType = some "application/json") ∧
    (resp.status ≠ 200 →
      resp.contentType = some "text/plain; charset=utf-8") := by
  rcases HandleWebhook_run_cases dh s k r with
    ⟨_, he⟩ | ⟨_, _, he⟩ | ⟨_, _, _, _, he⟩ | ⟨_, _, _, _, _, he⟩ |
    ⟨_, _, _, _, _, _, he⟩ | ⟨_, _, _, _, _, _, _, _, _, he⟩ |
    ⟨_, _, _, _, _, _, _, _, _, _, he⟩ |
    ⟨_, _, _, _, _, _, _, _, _, _, _, he⟩ |
    ⟨_, _, _, _, _, _, _, _, _, _, _, he⟩ <;>
    rw [he] at h <;> simp at h <;>
    (try subst h) <;>
    simp [httpError, writeJSONNilResponse, statusText]

/-- Witness for C7 amended at the concrete successful run. -/
theorem C7_amended_witness :
    (writeJSONNilResponse.status = 200 →
      writeJSONNilResponse.body = "null\n" ∧
      writeJSONNilResponse.contentType = some "application/json") ∧
    (writeJSONNilResponse.status ≠ 200 →
      writeJSONNilResponse.contentType = some "text/plain; charset=utf-8") :=
  C7_amended_response_bodies testHandler stripeOk kafkaOk postReq
    writeJSONNilResponse rfl

/-- C9: every record HandleWebhook hands to ProduceSync runs under the
context deadline Timeout, and Timeout is the fixed constant
500 * time.Millisecond (500 000 000 nanoseconds), so no publish call runs
unbounded. -/
theorem C9_publish_bounded_timeout
    (dh : DonationHandler) (s : StripeEnv) (k : KafkaEnv) (r : Request)
    (p : PublishCall) (hp : p ∈ (HandleWebhook dh s k r).1.publishes) :
    p.timeoutNs = Timeout ∧ Timeout = 500 * millisecond ∧ millisecond = 1000000 := by
  refine ⟨?_, rfl, rfl⟩
  rcases HandleWebhook_run_cases dh s k r with
    ⟨_, h⟩ | ⟨_, _, h⟩ | ⟨_, _, _, _, h⟩ | ⟨_, _, _, _, _, h⟩ |
    ⟨_, _, _, _, _, _, h⟩ | ⟨_, _, _, _, _, _, _, _, _, h⟩ |
    ⟨_, _, _, c, _, _, _, _, _, _, h⟩ |
    ⟨_, _, _, c, _, _, _, _, _, _, _, h⟩ |
    ⟨_, _, _, c, _, _, _, _, _, _, _, h⟩ <;>
    rw [h] at hp <;>
    simp [noEffects, readEffects, verifiedEffects, fetchedEffects, producedEffects] at hp
  all_goals rw [hp]; rfl

/-- Witness for C9: the record of the concrete successful run carries the
Timeout deadline. -/
theorem C9_witness :
    (customerRecord testHandler testCustomer).timeoutNs = Timeout ∧
    Timeout = 500 * millisecond ∧ millisecond = 1000000 :=
  C9_publish_bounded_timeout testHandler stripeOk kafkaOk postReq
    (customerRecord testHandler testCustomer)
    (by
      have h : (HandleWebhook testHandler stripeOk kafkaOk postReq).1.publishes
          = [customerRecord testHandler testCustomer] := rfl
      rw [h]
      exact List.Mem.head _)

/-- Numeric value of a decimal digit character, none for a non-digit. -/
def digitVal? (c : Char) : Option Nat :=
  if c.isDigit then some (c.toNat - 48) else none

/-- Value of a non-empty all-digit character list, none otherwise. -/
def digitsVal? (cs : List Char) : Option Nat :=
  if cs.isEmpty then none
  else cs.foldl (fun acc c => acc.bind fun n => (digitVal? c).map fun d => 10 * n + d) (some 0)

/-- Largest int64 value, for the bitSize 64 range check of ParseInt. -/
def int64Max : Int := 9223372036854775807

/-- Model of strconv.ParseInt(s, 10, 64): optional leading sign, then at
least one decimal digit and nothing else; out-of-range values are an error
(Go returns a clamped value together with ErrRange, and the caller only
checks the error, so collapsing the pair to an error is behaviourally
equal). -/
def parseInt64 (s : String) : Except String Int :=
  match s.data with
  | [] => Except.error "invalid syntax"
  | c :: rest =>
    let signDigits : Bool × List Char :=
      if c = '-' then (true, rest)
      else if c = '+' then (false, rest)
      else (false, c :: rest)
    match digitsVal? signDigits.2 with
    | none => Except.error "invalid syntax"
    | some n =>
      let v : Int := if signDigits.1 then -(n : Int) else (n : Int)
      if v < -(int64Max + 1) ∨ int64Max < v then Except.error "value out of range"
      else Except.ok v

/-- Inbound request to /create-payment-intent, reduced to what the handler
reads: the "amount" entry of the query-parameter map (none when the key is
absent, otherwise the list of values given for it). -/
structure PaymentRequest where
  amountParams : Option (List String)

/-- Shallow embedding of getAmount (handler.go lines 230-241): missing or
empty "amount" values are an error, more than one value is an error, else
the single value is parsed with ParseInt. -/
def getAmount (r : PaymentRequest) : Except String Int :=
  match r.amountParams with
  | none => Except.error "missing amount query parameter"
  | some [] => Except.error "missing amount query parameter"
  | some [a] => parseInt64 a
  | some (_ :: _ :: _) => Except.error "more than one amount is specified"

/-- Response written by writeJSONErrorMessage (handler.go lines 221-228):
the JSON error envelope with the given message and status code. -/
def jsonErrorMessage (msg : String) (code : Nat) : HttpResponse :=
  { status := code, contentType := some "application/json",
    body := "\x7b\"error\":\x7b\"message\":" ++ jsonQuote msg ++ "\x7d\x7d\n" }

/-- Response written on success of HandleCreatePaymentIntent: the JSON
object with the client secret. -/
def clientSecretResponse (cs : String) : HttpResponse :=
  { status := 200, contentType := some "application/json",
    body := "\x7b\"clientSecret\":" ++ jsonQuote cs ++ "\x7d\n" }

/-- Result of the external paymentintent.New call: a stripe.Error, another
error, or the created intent's client secret. -/
inductive PaymentIntentResult where
  | stripeError (msg : String)
  | otherError (msg : String)
  | created (clientSecret : String)

/-- Effects of one HandleCreatePaymentIntent call: the (amount, currency)
parameter pairs passed to paymentintent.New. -/
structure PaymentIntentEffects where
  intentsCreated : List (Int × String)
  deriving DecidableEq, Repr

/-- Shallow embedding of HandleCreatePaymentIntent (handler.go lines
87-125): a bad or non-positive amount returns early with no response
written and no intent created; otherwise paymentintent.New is called with
the amount and the Currency constant, a stripe.Error maps to the 400 JSON
error envelope, any other error to the 500 envelope, success to the
clientSecret JSON object. -/
def HandleCreatePaymentIntent (piNew : Int → String → PaymentIntentResult)
    (r : PaymentRequest) : PaymentIntentEffects × Option HttpResponse :=
  match getAmount r with
  | Except.error _ => ({ intentsCreated := [] }, none)
  | Except.ok amount =>
    if amount < 1 then ({ intentsCreated := [] }, none)
    else
      match piNew amount Currency with
      | PaymentIntentResult.stripeError msg =>
          ({ intentsCreated := [(amount, Currency)] }, some (jsonErrorMessage msg 400))
      | PaymentIntentResult.otherError _ =>
          ({ intentsCreated := [(amount, Currency)] },
           some (jsonErrorMessage "Unknown server error" 500))
      | PaymentIntentResult.created cs =>
          ({ intentsCreated := [(amount, Currency)] }, some (clientSecretResponse cs))

/-- C8: for every /create-payment-intent request whose amount query
parameter is missing or does not parse as a positive integer (every
successful parse yields a value below 1, which covers a missing parameter,
a parse failure and a non-positive value), HandleCreatePaymentIntent
returns without calling paymentintent.New and without writing a
response. -/
theorem C8_invalid_amount_no_intent
    (piNew : Int → String → PaymentIntentResult) (r : PaymentRequest)
    (h : ∀ a, getAmount r = Except.ok a → a < 1) :
    (HandleCreatePaymentIntent piNew r).1.intentsCreated = [] ∧
    (HandleCreatePaymentIntent piNew r).2 = none := by
  rcases ha : getAmount r with msg | a
  · constructor <;> simp [HandleCreatePaymentIntent, ha]
  · have hlt : a < 1 := h a ha
    constructor <;> simp [HandleCreatePaymentIntent, ha, hlt]

/-- Witness for C8: a request without the amount parameter creates no
intent, and requests whose amount is 0 or does not parse behave the
same. -/
theorem C8_witness :
    (HandleCreatePaymentIntent (fun _ _ => PaymentIntentResult.created "sec")
        { amountParams := none }).1.intentsCreated = [] ∧
    (HandleCreatePaymentIntent (fun _ _ => PaymentIntentResult.created "sec")
        { amountParams := none }).2 = none :=
  C8_invalid_amount_no_intent (fun _ _ => PaymentIntentResult.created "sec")
    { amountParams := none } (by intro a ha; simp [getAmount] at ha)

end DonationServer
